import Mathlib

/-!
Shallow embedding of the visca-ip-to-visca relay (src/src/index.ts) and of the
legacy packet-type parser revision shown in src/README.md.

Buffers are modelled as lists of natural numbers (one per byte); JavaScript
unsigned shifts coerce their operand to a 32-bit unsigned integer first, which
is modelled explicitly by reducing modulo 2^32.  Node buffer reads past the end
of a buffer throw a RangeError, modelled by the dedicated error value
DecodeError.outOfRange; the two decoding failures thrown by the code itself are
DecodeError.unknownCategory and DecodeError.lengthMismatch.
-/

/-- The six packet categories of the current revision (enum ViscaIpPacketType). -/
inductive ViscaIpPacketType where
  | command
  | inquiry
  | reply
  | deviceSettingCommand
  | controlCommand
  | controlReply
deriving DecidableEq, Repr

/-- The 16-bit wire code of each category, as in the TypeScript enum. -/
def ViscaIpPacketType.code : ViscaIpPacketType → Nat
  | .command => 0x0100
  | .inquiry => 0x0110
  | .reply => 0x0111
  | .deviceSettingCommand => 0x0120
  | .controlCommand => 0x0200
  | .controlReply => 0x0201

/-- The packet value type (class ViscaIpPacket): category, stored length field,
sequence number and payload bytes. -/
structure ViscaIpPacket where
  type : ViscaIpPacketType
  length : Nat
  sequenceNumber : Nat
  payload : List Nat
deriving DecidableEq, Repr

/-- JavaScript x >>> k on a natural number: coerce to a 32-bit unsigned
integer, then shift right. -/
def jsShrU (x k : Nat) : Nat := (x % 4294967296) / 2 ^ k

/-- ViscaIpPacket.toBuffer: 8-byte big-endian header (2 bytes category code,
2 bytes length field, 4 bytes sequence number) followed by the payload.
Buffer.from truncates each entry to a byte, modelled by the modulo 256. -/
def ViscaIpPacket.toBuffer (p : ViscaIpPacket) : List Nat :=
  [ jsShrU p.type.code 8 % 256, p.type.code % 256,
    jsShrU p.length 8 % 256, p.length % 256,
    jsShrU p.sequenceNumber 24 % 256, jsShrU p.sequenceNumber 16 % 256,
    jsShrU p.sequenceNumber 8 % 256, p.sequenceNumber % 256 ] ++ p.payload

/-- Decoding failures.  unknownCategory and lengthMismatch are the two errors
thrown by the source itself; outOfRange models the RangeError Node raises when
a read reaches past the end of the buffer. -/
inductive DecodeError where
  | unknownCategory (code : Nat)
  | lengthMismatch (declared actual : Nat)
  | outOfRange
deriving DecidableEq, Repr

/-- Whether a decoding failure is one of the two defined MalformedPacket
errors (UnknownCategory or LengthMismatch). -/
def DecodeError.isDefinedMalformed : DecodeError → Bool
  | .unknownCategory _ => true
  | .lengthMismatch _ _ => true
  | .outOfRange => false

/-- Node buffer.readUInt16BE offset: big-endian 16-bit read, RangeError when
fewer than two bytes are available at the offset. -/
def readUInt16BE (buffer : List Nat) (offset : Nat) : Except DecodeError Nat :=
  if offset + 2 ≤ buffer.length then
    .ok (256 * buffer.getD offset 0 + buffer.getD (offset + 1) 0)
  else .error .outOfRange

/-- Node buffer.readUInt32BE offset: big-endian 32-bit read, RangeError when
fewer than four bytes are available at the offset. -/
def readUInt32BE (buffer : List Nat) (offset : Nat) : Except DecodeError Nat :=
  if offset + 4 ≤ buffer.length then
    .ok (16777216 * buffer.getD offset 0 + 65536 * buffer.getD (offset + 1) 0 +
         256 * buffer.getD (offset + 2) 0 + buffer.getD (offset + 3) 0)
  else .error .outOfRange

/-- ViscaIpPacket._parseType of the current revision (src/src/index.ts): the
six known codes map to their categories, everything else throws. -/
def ViscaIpPacket.parseType (value : Nat) : Except DecodeError ViscaIpPacketType :=
  if value = 0x0100 then .ok .command
  else if value = 0x0110 then .ok .inquiry
  else if value = 0x0111 then .ok .reply
  else if value = 0x0120 then .ok .deviceSettingCommand
  else if value = 0x0200 then .ok .controlCommand
  else if value = 0x0201 then .ok .controlReply
  else .error (.unknownCategory value)

/-- ViscaIpPacket._parseType of the legacy revision (src/README.md): only
command and inquiry map to themselves, the reply code 0x0111 maps back onto
command, everything else throws. -/
def ViscaIpPacket.parseTypeLegacy (value : Nat) : Except DecodeError ViscaIpPacketType :=
  if value = 0x0100 then .ok .command
  else if value = 0x0110 then .ok .inquiry
  else if value = 0x0111 then .ok .command
  else .error (.unknownCategory value)

/-- The six known 16-bit category codes. -/
def knownCategoryCodes : List Nat := [0x0100, 0x0110, 0x0111, 0x0120, 0x0200, 0x0201]

/-- ViscaIpPacket.fromBuffer: reads the category code at offset 0 and parses
it, then the declared length at offset 2, the sequence number at offset 4, and
takes the remaining bytes as payload; throws when the payload byte count
differs from the declared length.  The match nesting mirrors the evaluation
order of the source. -/
def ViscaIpPacket.fromBuffer (buffer : List Nat) : Except DecodeError ViscaIpPacket :=
  match readUInt16BE buffer 0 with
  | .error e => .error e
  | .ok code =>
    match ViscaIpPacket.parseType code with
    | .error e => .error e
    | .ok type =>
      match readUInt16BE buffer 2 with
      | .error e => .error e
      | .ok length =>
        match readUInt32BE buffer 4 with
        | .error e => .error e
        | .ok sequenceNumber =>
          let payload := buffer.drop 8
          if payload.length ≠ length then
            .error (.lengthMismatch length payload.length)
          else .ok ⟨type, length, sequenceNumber, payload⟩

/-- ViscaIpPacket.fromPayload: builds a packet whose length field is the
payload byte count. -/
def ViscaIpPacket.fromPayload (type : ViscaIpPacketType) (sequenceNumber : Nat)
    (payload : List Nat) : ViscaIpPacket :=
  ⟨type, payload.length, sequenceNumber, payload⟩

/-- A network peer address (the port and address fields of the dgram
RemoteInfo the handlers use). -/
structure RemoteInfo where
  address : String
  port : Nat
deriving DecidableEq, Repr

/-- The relay's only persistent state: the three module-level variables
currentSequenceNumber, currentRemoteInfo and currentPacketType, each nullable
(null modelled as none). -/
structure RelayState where
  currentSequenceNumber : Option Nat
  currentRemoteInfo : Option RemoteInfo
  currentPacketType : Option ViscaIpPacketType
deriving DecidableEq, Repr

/-- The initial state: all three variables are null. -/
def initialRelayState : RelayState := ⟨none, none, none⟩

/-- Observable actions of a handler.  Log messages carry the fixed prefix of
the console.log call that produced them; the hex rendering appended by the
source is diagnostic only and not modelled. -/
inductive Effect where
  | log (msg : String)
  | serialWrite (bytes : List Nat)
  | udpSend (bytes : List Nat) (port : Nat) (address : String)
deriving DecidableEq, Repr

/-- Whether an effect is a network send. -/
def Effect.isUdpSend : Effect → Bool
  | .udpSend _ _ _ => true
  | _ => false

/-- Whether an effect is a serial write. -/
def Effect.isSerialWrite : Effect → Bool
  | .serialWrite _ => true
  | _ => false

/-- An unhandled JavaScript runtime error thrown inside a handler. -/
inductive RuntimeError where
  | nullDereference
deriving DecidableEq, Repr

/-- The socket message handler: decode the datagram; on success overwrite the
three state variables with the packet's sequence number, the sender and the
packet's category, then write the payload to the serial port; on a decoding
failure the catch block logs and the state is untouched. -/
def onMessage (st : RelayState) (msgBuffer : List Nat) (remoteInfo : RemoteInfo) :
    RelayState × List Effect :=
  match ViscaIpPacket.fromBuffer msgBuffer with
  | .error _ => (st, [Effect.log "Socket RECV Error"])
  | .ok receivedPacket =>
    (⟨some receivedPacket.sequenceNumber, some remoteInfo, some receivedPacket.type⟩,
     [Effect.log "Socket RECV", Effect.log "Serial SEND",
      Effect.serialWrite receivedPacket.payload])

/-- The serial data handler: pick controlReply when the current packet type is
controlCommand and reply otherwise, build the response packet from the frame,
then send it to the current remote peer.  The source performs no null check:
when currentRemoteInfo is null the access currentRemoteInfo.port throws a
TypeError after the two logs, so no send occurs and the handler ends in a
runtime error.  A null currentSequenceNumber is coerced to 0 by the unsigned
shifts in toBuffer, modelled by applying the coercion at construction. -/
def onSerialData (st : RelayState) (responseData : List Nat) :
    List Effect × Option RuntimeError :=
  let responsePacketType :=
    if st.currentPacketType = some ViscaIpPacketType.controlCommand then
      ViscaIpPacketType.controlReply
    else ViscaIpPacketType.reply
  let responsePacket :=
    ViscaIpPacket.fromPayload responsePacketType
      (st.currentSequenceNumber.getD 0) responseData
  match st.currentRemoteInfo with
  | none =>
    ([Effect.log "Serial RECV", Effect.log "Socket SEND"],
     some RuntimeError.nullDereference)
  | some remoteInfo =>
    ([Effect.log "Serial RECV", Effect.log "Socket SEND",
      Effect.udpSend responsePacket.toBuffer remoteInfo.port remoteInfo.address],
     none)

/-- An external event delivered to the relay. -/
inductive RelayEvent where
  | message (msgBuffer : List Nat) (remoteInfo : RemoteInfo)
  | serialData (responseData : List Nat)
deriving DecidableEq, Repr

/-- One event dispatch: the message handler never throws (its body is wrapped
in try/catch), the serial data handler can end in a runtime error. -/
def relayStep (st : RelayState) : RelayEvent → RelayState × List Effect × Option RuntimeError
  | .message msgBuffer remoteInfo =>
    match onMessage st msgBuffer remoteInfo with
    | (st', effects) => (st', effects, none)
  | .serialData responseData =>
    match onSerialData st responseData with
    | (effects, err) => (st, effects, err)

/-- Run a sequence of events from a state, collecting the effects in order; an
unhandled runtime error stops the process. -/
def relayRun : RelayState → List RelayEvent → RelayState × List Effect × Option RuntimeError
  | st, [] => (st, [], none)
  | st, e :: es =>
    match relayStep st e with
    | (st', effects, some err) => (st', effects, some err)
    | (st', effects, none) =>
      match relayRun st' es with
      | (st'', effects', err) => (st'', effects ++ effects', err)

/-- True when decoding the buffer returns a packet. -/
def decodeSucceeds (buffer : List Nat) : Bool :=
  match ViscaIpPacket.fromBuffer buffer with
  | .ok _ => true
  | .error _ => false

theorem ViscaIpPacketType.code_lt (t : ViscaIpPacketType) : t.code < 65536 := by
  cases t <;> decide

theorem parseType_code (t : ViscaIpPacketType) :
    ViscaIpPacket.parseType t.code = .ok t := by
  cases t <;> rfl

theorem jsShrU_recombine16 (x : Nat) (hx : x < 65536) :
    256 * (jsShrU x 8 % 256) + x % 256 = x := by
  simp only [jsShrU]
  omega

theorem jsShrU_recombine32 (x : Nat) (hx : x < 4294967296) :
    16777216 * (jsShrU x 24 % 256) + 65536 * (jsShrU x 16 % 256) +
      256 * (jsShrU x 8 % 256) + x % 256 = x := by
  simp only [jsShrU]
  omega

theorem readUInt16BE_zero (b0 b1 : Nat) (rest : List Nat) :
    readUInt16BE (b0 :: b1 :: rest) 0 = .ok (256 * b0 + b1) := by
  simp [readUInt16BE, List.getD]

theorem readUInt16BE_two (b0 b1 b2 b3 : Nat) (rest : List Nat) :
    readUInt16BE (b0 :: b1 :: b2 :: b3 :: rest) 2 = .ok (256 * b2 + b3) := by
  simp [readUInt16BE, List.getD]

theorem readUInt32BE_four (b0 b1 b2 b3 b4 b5 b6 b7 : Nat) (rest : List Nat) :
    readUInt32BE (b0 :: b1 :: b2 :: b3 :: b4 :: b5 :: b6 :: b7 :: rest) 4 =
      .ok (16777216 * b4 + 65536 * b5 + 256 * b6 + b7) := by
  simp [readUInt32BE, List.getD]

theorem fromBuffer_cons (b0 b1 b2 b3 b4 b5 b6 b7 : Nat) (pl : List Nat) :
    ViscaIpPacket.fromBuffer (b0 :: b1 :: b2 :: b3 :: b4 :: b5 :: b6 :: b7 :: pl) =
      match ViscaIpPacket.parseType (256 * b0 + b1) with
      | .error e => .error e
      | .ok type =>
        if pl.length ≠ 256 * b2 + b3 then
          .error (.lengthMismatch (256 * b2 + b3) pl.length)
        else .ok ⟨type, 256 * b2 + b3, 16777216 * b4 + 65536 * b5 + 256 * b6 + b7, pl⟩ := by
  unfold ViscaIpPacket.fromBuffer
  rw [readUInt16BE_zero, readUInt16BE_two, readUInt32BE_four]
  rfl

theorem roundtrip_core (t : ViscaIpPacketType) (len seq : Nat) (pl : List Nat)
    (hlen : len = pl.length) (hseq : seq < 4294967296) (hpl : pl.length ≤ 65535) :
    ViscaIpPacket.fromBuffer (ViscaIpPacket.toBuffer ⟨t, len, seq, pl⟩) =
      .ok ⟨t, len, seq, pl⟩ := by
  have hcode := ViscaIpPacketType.code_lt t
  show ViscaIpPacket.fromBuffer
      (jsShrU t.code 8 % 256 :: t.code % 256 ::
       (jsShrU len 8 % 256) :: len % 256 ::
       (jsShrU seq 24 % 256) :: (jsShrU seq 16 % 256) ::
       (jsShrU seq 8 % 256) :: seq % 256 :: pl) = .ok ⟨t, len, seq, pl⟩
  rw [fromBuffer_cons, jsShrU_recombine16 t.code hcode,
    jsShrU_recombine16 len (by omega), jsShrU_recombine32 seq hseq,
    parseType_code]
  subst hlen
  simp

theorem roundtrip_example :
    ViscaIpPacket.fromBuffer (ViscaIpPacket.toBuffer ⟨.command, 3, 7, [129, 1, 255]⟩) =
      .ok ⟨.command, 3, 7, [129, 1, 255]⟩ := by rfl

theorem parseType_unknown (v : Nat) (hv : v ∉ knownCategoryCodes) :
    ViscaIpPacket.parseType v = .error (.unknownCategory v) := by
  simp [knownCategoryCodes] at hv
  obtain ⟨h1, h2, h3, h4, h5, h6⟩ := hv
  simp [ViscaIpPacket.parseType, h1, h2, h3, h4, h5, h6]

/-- Claim C1: a serial frame arriving before any network request produces no
network send, which the code satisfies; but instead of logging and dropping
the frame as an OrphanFrame and keeping the process running, the handler
dereferences the null currentRemoteInfo and ends in an unhandled runtime
error after its two log lines. -/
theorem claim1_orphan_frame_crashes (frame : List Nat) :
    (onSerialData initialRelayState frame).1.all (fun e => !e.isUdpSend) = true ∧
    (onSerialData initialRelayState frame).2 = some RuntimeError.nullDereference := by
  exact ⟨rfl, rfl⟩

/-- Claim C2: decoding the encoding of any valid packet (length field equal to
the payload byte count, 32-bit sequence number, payload at most 65535 bytes,
category one of the six enum values) returns the packet unchanged. -/
theorem claim2_decode_encode_roundtrip (p : ViscaIpPacket)
    (hlen : p.length = p.payload.length)
    (hseq : p.sequenceNumber < 4294967296)
    (hpl : p.payload.length ≤ 65535) :
    ViscaIpPacket.fromBuffer p.toBuffer = .ok p := by
  obtain ⟨t, len, seq, pl⟩ := p
  exact roundtrip_core t len seq pl hlen hseq hpl

/-- Witness for C2 at a concrete inquiry packet. -/
theorem claim2_witness :
    ViscaIpPacket.fromBuffer
        (ViscaIpPacket.toBuffer ⟨.inquiry, 3, 3, [144, 80, 255]⟩) =
      .ok ⟨.inquiry, 3, 3, [144, 80, 255]⟩ :=
  claim2_decode_encode_roundtrip ⟨.inquiry, 3, 3, [144, 80, 255]⟩
    (by decide) (by decide) (by decide)

/-- Claim C5: when an inbound datagram fails to decode with one of the defined
MalformedPacket errors, the handler only logs: the state is returned exactly
as it was, and no send or serial write is produced. -/
theorem claim5_malformed_no_state_change (st : RelayState) (b : List Nat)
    (r : RemoteInfo) (e : DecodeError)
    (hd : ViscaIpPacket.fromBuffer b = .error e)
    (hdef : e.isDefinedMalformed = true) :
    onMessage st b r = (st, [Effect.log "Socket RECV Error"]) := by
  simp [onMessage, hd]

/-- Witness for C5: an unknown-category datagram against a populated state. -/
theorem claim5_witness :
    onMessage ⟨some 5, some ⟨"10.0.0.1", 52381⟩, some .command⟩
        [0, 0, 0, 0, 0, 0, 0, 0] ⟨"10.0.0.2", 52381⟩ =
      (⟨some 5, some ⟨"10.0.0.1", 52381⟩, some .command⟩,
       [Effect.log "Socket RECV Error"]) :=
  claim5_malformed_no_state_change _ _ _ (DecodeError.unknownCategory 0) rfl rfl

/-- Claim C6: for any input of at least 8 bytes whose first two bytes parse to
a known category, decoding fails with lengthMismatch of the declared length
field against the actual trailing byte count whenever the two differ. -/
theorem claim6_length_mismatch (b0 b1 b2 b3 b4 b5 b6 b7 : Nat) (pl : List Nat)
    (t : ViscaIpPacketType)
    (ht : ViscaIpPacket.parseType (256 * b0 + b1) = .ok t)
    (hm : pl.length ≠ 256 * b2 + b3) :
    ViscaIpPacket.fromBuffer (b0 :: b1 :: b2 :: b3 :: b4 :: b5 :: b6 :: b7 :: pl) =
      .error (.lengthMismatch (256 * b2 + b3) pl.length) := by
  rw [fromBuffer_cons, ht]
  simp [hm]

/-- Witness for C6: declared length 5, actual payload length 1. -/
theorem claim6_witness :
    ViscaIpPacket.fromBuffer [1, 0, 0, 5, 0, 0, 0, 1, 170] =
      .error (.lengthMismatch 5 1) := by
  have h := claim6_length_mismatch 1 0 0 5 0 0 0 1 [170]
    ViscaIpPacketType.command (by rfl) (by decide)
  simpa using h

/-- Claim C7: for any input of at least 8 bytes whose first two bytes encode a
16-bit value outside the six known category codes, decoding fails with
unknownCategory of that value, whatever the remaining bytes are. -/
theorem claim7_unknown_category (b0 b1 b2 b3 b4 b5 b6 b7 : Nat) (pl : List Nat)
    (hu : (256 * b0 + b1) ∉ knownCategoryCodes) :
    ViscaIpPacket.fromBuffer (b0 :: b1 :: b2 :: b3 :: b4 :: b5 :: b6 :: b7 :: pl) =
      .error (.unknownCategory (256 * b0 + b1)) := by
  rw [fromBuffer_cons, parseType_unknown _ hu]

/-- Witness for C7 at code 0xFFFF. -/
theorem claim7_witness :
    ViscaIpPacket.fromBuffer [255, 255, 0, 0, 0, 0, 0, 0] =
      .error (.unknownCategory 65535) := by
  have h := claim7_unknown_category 255 255 0 0 0 0 0 0 [] (by decide)
  simpa using h

/-- Claim C10: category validation precedes length validation: an input of at
least 8 bytes with an unknown category code and a mismatched length field
fails with unknownCategory, never with lengthMismatch. -/
theorem claim10_category_before_length (b0 b1 b2 b3 b4 b5 b6 b7 : Nat)
    (pl : List Nat) (hu : (256 * b0 + b1) ∉ knownCategoryCodes)
    (hm : pl.length ≠ 256 * b2 + b3) :
    ViscaIpPacket.fromBuffer (b0 :: b1 :: b2 :: b3 :: b4 :: b5 :: b6 :: b7 :: pl) =
      .error (.unknownCategory (256 * b0 + b1)) ∧
    ∀ d a, ViscaIpPacket.fromBuffer (b0 :: b1 :: b2 :: b3 :: b4 :: b5 :: b6 :: b7 :: pl) ≠
      .error (.lengthMismatch d a) := by
  have h : ViscaIpPacket.fromBuffer (b0 :: b1 :: b2 :: b3 :: b4 :: b5 :: b6 :: b7 :: pl) =
      .error (.unknownCategory (256 * b0 + b1)) := by
    rw [fromBuffer_cons, parseType_unknown _ hu]
  refine ⟨h, fun d a => ?_⟩
  rw [h]
  intro hcontra
  exact absurd (Except.error.inj hcontra) (by simp)

/-- Witness for C10: unknown code 0x0000 with declared length 5 and actual 1. -/
theorem claim10_witness :
    ViscaIpPacket.fromBuffer [0, 0, 0, 5, 0, 0, 0, 1, 9] =
      .error (.unknownCategory 0) ∧
    ∀ d a, ViscaIpPacket.fromBuffer [0, 0, 0, 5, 0, 0, 0, 1, 9] ≠
      .error (.lengthMismatch d a) := by
  have h := claim10_category_before_length 0 0 0 5 0 0 0 1 [9] (by decide) (by decide)
  simpa using h

/-- Counterexample for C8 as stated: the 4-byte input 01 00 00 00 carries a
known category code, so decoding fails with the out-of-range read error Node
raises at the sequence-number field, which is not one of the two defined
MalformedPacket failures. -/
theorem claim8_counterexample :
    ViscaIpPacket.fromBuffer [1, 0, 0, 0] = .error .outOfRange ∧
    DecodeError.outOfRange.isDefinedMalformed = false :=
  ⟨rfl, rfl⟩

/-- Claim C8 (amended): every input shorter than 8 bytes makes decode fail
rather than return a packet, though the failure is not always one of the two
defined MalformedPacket errors. -/
theorem claim8_short_input_fails (b : List Nat) (h : b.length < 8) :
    decodeSucceeds b = false := by
  have h32 : readUInt32BE b 4 = .error .outOfRange := by
    unfold readUInt32BE
    rw [if_neg (by omega)]
  unfold decodeSucceeds ViscaIpPacket.fromBuffer
  rw [h32]
  cases hc : readUInt16BE b 0 with
  | error e => simp
  | ok code =>
    cases hp : ViscaIpPacket.parseType code with
    | error e => simp [hp]
    | ok t =>
      cases h2 : readUInt16BE b 2 with
      | error e => simp [hp, h2]
      | ok len => simp [hp, h2]

/-- Witness for C8 (amended) at the empty input. -/
theorem claim8_witness : decodeSucceeds [] = false :=
  claim8_short_input_fails [] (by decide)

/-- Claim C9: the legacy revision's parser maps the reply code 0x0111 onto
command while the current revision maps it onto reply, and at every other code
the two parsers either agree outright or the legacy parser rejects. -/
theorem claim9_legacy_parser_divergence :
    ViscaIpPacket.parseTypeLegacy 0x0111 = .ok .command ∧
    ViscaIpPacket.parseType 0x0111 = .ok .reply ∧
    ∀ v : Nat, v ≠ 0x0111 →
      (ViscaIpPacket.parseTypeLegacy v = ViscaIpPacket.parseType v ∨
       ViscaIpPacket.parseTypeLegacy v = .error (.unknownCategory v)) := by
  refine ⟨rfl, rfl, ?_⟩
  intro v hv
  by_cases h1 : v = 0x0100
  · subst h1; left; rfl
  · by_cases h2 : v = 0x0110
    · subst h2; left; rfl
    · right
      simp [ViscaIpPacket.parseTypeLegacy, h1, h2, hv]

/-- Witness for C9 at code 0x0120, accepted by the current parser only. -/
theorem claim9_witness :
    ViscaIpPacket.parseTypeLegacy 0x0120 = ViscaIpPacket.parseType 0x0120 ∨
    ViscaIpPacket.parseTypeLegacy 0x0120 = .error (.unknownCategory 0x0120) :=
  claim9_legacy_parser_divergence.2.2 0x0120 (by decide)

/-- Claim C3: with a session context set, a serial frame produces no runtime
error and exactly one network send, addressed to the stored peer; the sent
bytes decode to a packet whose category is controlReply when the stored
request category was controlCommand and reply otherwise, whose sequence
number is the stored one verbatim, and whose payload is exactly the frame. -/
theorem claim3_serial_reply_routing (seq : Nat) (ri : RemoteInfo)
    (cat : ViscaIpPacketType) (frame : List Nat)
    (hseq : seq < 4294967296) (hf : frame.length ≤ 65535) :
    (onSerialData ⟨some seq, some ri, some cat⟩ frame).2 = none ∧
    ∃ bytes,
      (onSerialData ⟨some seq, some ri, some cat⟩ frame).1.filter Effect.isUdpSend =
        [Effect.udpSend bytes ri.port ri.address] ∧
      ViscaIpPacket.fromBuffer bytes =
        .ok ⟨if cat = ViscaIpPacketType.controlCommand then .controlReply else .reply,
             frame.length, seq, frame⟩ := by
  by_cases hcat : cat = ViscaIpPacketType.controlCommand
  · subst hcat
    refine ⟨rfl, (ViscaIpPacket.fromPayload .controlReply seq frame).toBuffer, ?_, ?_⟩
    · simp [onSerialData, Effect.isUdpSend, ViscaIpPacket.fromPayload]
    · have h := roundtrip_core .controlReply frame.length seq frame rfl hseq hf
      simpa [ViscaIpPacket.fromPayload] using h
  · refine ⟨rfl, (ViscaIpPacket.fromPayload .reply seq frame).toBuffer, ?_, ?_⟩
    · simp [onSerialData, Effect.isUdpSend, ViscaIpPacket.fromPayload, hcat]
    · have h := roundtrip_core .reply frame.length seq frame rfl hseq hf
      simpa [ViscaIpPacket.fromPayload, hcat] using h

/-- Witness for C3: a control command context with sequence 7. -/
theorem claim3_witness :
    (onSerialData ⟨some 7, some ⟨"10.0.0.1", 52381⟩, some .controlCommand⟩
        [144, 80, 255]).2 = none ∧
    ∃ bytes,
      (onSerialData ⟨some 7, some ⟨"10.0.0.1", 52381⟩, some .controlCommand⟩
          [144, 80, 255]).1.filter Effect.isUdpSend =
        [Effect.udpSend bytes 52381 "10.0.0.1"] ∧
      ViscaIpPacket.fromBuffer bytes =
        .ok ⟨if ViscaIpPacketType.controlCommand = ViscaIpPacketType.controlCommand
             then .controlReply else .reply, 3, 7, [144, 80, 255]⟩ :=
  claim3_serial_reply_routing 7 ⟨"10.0.0.1", 52381⟩ .controlCommand
    [144, 80, 255] (by decide) (by decide)

/-- Claim C4: two valid requests (sequence 1 then sequence 2) followed by one
serial frame yield no runtime error and exactly one network send, built from
the second request's context: its category routing, sequence number 2, and
the second sender's port and address. -/
theorem claim4_last_write_wins (c1 c2 : ViscaIpPacketType) (p1 p2 : List Nat)
    (r1 r2 : RemoteInfo) (f : List Nat)
    (h1 : p1.length ≤ 65535) (h2 : p2.length ≤ 65535) :
    (relayRun initialRelayState
      [RelayEvent.message (ViscaIpPacket.fromPayload c1 1 p1).toBuffer r1,
       RelayEvent.message (ViscaIpPacket.fromPayload c2 2 p2).toBuffer r2,
       RelayEvent.serialData f]).2.2 = none ∧
    (relayRun initialRelayState
      [RelayEvent.message (ViscaIpPacket.fromPayload c1 1 p1).toBuffer r1,
       RelayEvent.message (ViscaIpPacket.fromPayload c2 2 p2).toBuffer r2,
       RelayEvent.serialData f]).2.1.filter Effect.isUdpSend =
      [Effect.udpSend
        (ViscaIpPacket.fromPayload
          (if c2 = ViscaIpPacketType.controlCommand then .controlReply else .reply)
          2 f).toBuffer
        r2.port r2.address] := by
  have hr1 : ViscaIpPacket.fromBuffer (ViscaIpPacket.fromPayload c1 1 p1).toBuffer =
      .ok ⟨c1, p1.length, 1, p1⟩ :=
    roundtrip_core c1 p1.length 1 p1 rfl (by norm_num) h1
  have hr2 : ViscaIpPacket.fromBuffer (ViscaIpPacket.fromPayload c2 2 p2).toBuffer =
      .ok ⟨c2, p2.length, 2, p2⟩ :=
    roundtrip_core c2 p2.length 2 p2 rfl (by norm_num) h2
  by_cases hcat : c2 = ViscaIpPacketType.controlCommand
  · subst hcat
    simp [relayRun, relayStep, onMessage, onSerialData, hr1, hr2,
      Effect.isUdpSend]
  · simp [relayRun, relayStep, onMessage, onSerialData, hr1, hr2,
      Effect.isUdpSend, hcat]

/-- Witness for C4: an inquiry then a control command from different peers,
then one frame. -/
theorem claim4_witness :
    (relayRun initialRelayState
      [RelayEvent.message
        (ViscaIpPacket.fromPayload .inquiry 1 [129, 9, 255]).toBuffer
        ⟨"10.0.0.1", 1000⟩,
       RelayEvent.message
        (ViscaIpPacket.fromPayload .controlCommand 2 [1]).toBuffer
        ⟨"10.0.0.2", 2000⟩,
       RelayEvent.serialData [144, 80, 255]]).2.2 = none ∧
    (relayRun initialRelayState
      [RelayEvent.message
        (ViscaIpPacket.fromPayload .inquiry 1 [129, 9, 255]).toBuffer
        ⟨"10.0.0.1", 1000⟩,
       RelayEvent.message
        (ViscaIpPacket.fromPayload .controlCommand 2 [1]).toBuffer
        ⟨"10.0.0.2", 2000⟩,
       RelayEvent.serialData [144, 80, 255]]).2.1.filter Effect.isUdpSend =
      [Effect.udpSend
        (ViscaIpPacket.fromPayload
          (if ViscaIpPacketType.controlCommand = ViscaIpPacketType.controlCommand
           then .controlReply else .reply)
          2 [144, 80, 255]).toBuffer
        2000 "10.0.0.2"] :=
  claim4_last_write_wins .inquiry .controlCommand [129, 9, 255] [1]
    ⟨"10.0.0.1", 1000⟩ ⟨"10.0.0.2", 2000⟩ [144, 80, 255] (by decide) (by decide)
